import Mathlib

/-!
# Verification of the Zoom-to-CRM webhook automation

A shallow embedding of `src/main.py`: the webhook endpoint `zoom_webhook`
(handshake HMAC answer, duration gate, MP4 selection, background-job
scheduling) and the background job `process_recording_logic` (contact
waterfall, download, AI transcription, note publishing, cleanup).

External HTTP/SDK calls are modelled by a `JobEnv` record that fixes the
outcome of each outbound call; side effects are recorded in an explicit
`Effect` trace.  Exceptions are modelled with `Except PyErr`.  HMAC-SHA256
is implemented in full over byte lists (`Nat` mod 256 / mod 2^32).
-/

namespace ZoomAuto

/-- A Python exception, abstracted to the distinctions the control flow uses. -/
inductive PyErr where
  | attributeError
  | jsonDecodeError
  | httpError
  | other (msg : String)
deriving DecidableEq, Repr

/-! ## SHA-256 over byte lists (bytes are `Nat < 256`, words are `Nat < 2^32`) -/

/-- Truncate to a 32-bit word. -/
def w32 (x : Nat) : Nat := x % 4294967296

/-- Rotate a 32-bit word right by `n`. -/
def rotr (n x : Nat) : Nat := w32 ((x >>> n) ||| (x <<< (32 - n)))

/-- Bitwise complement of a 32-bit word. -/
def compl32 (x : Nat) : Nat := x ^^^ 4294967295

def ch (x y z : Nat) : Nat := (x &&& y) ^^^ (compl32 x &&& z)

def maj (x y z : Nat) : Nat := (x &&& y) ^^^ (x &&& z) ^^^ (y &&& z)

def bigSigma0 (x : Nat) : Nat := rotr 2 x ^^^ rotr 13 x ^^^ rotr 22 x

def bigSigma1 (x : Nat) : Nat := rotr 6 x ^^^ rotr 11 x ^^^ rotr 25 x

def smallSigma0 (x : Nat) : Nat := rotr 7 x ^^^ rotr 18 x ^^^ (x >>> 3)

def smallSigma1 (x : Nat) : Nat := rotr 17 x ^^^ rotr 19 x ^^^ (x >>> 10)

/-- SHA-256 round constants (fractional parts of cube roots of the first 64 primes). -/
def roundK : List Nat :=
  [1116352408, 1899447441, 3049323471, 3921009573, 961987163,
   1508970993, 2453635748, 2870763221, 3624381080, 310598401,
   607225278, 1426881987, 1925078388, 2162078206, 2614888103,
   3248222580, 3835390401, 4022224774, 264347078, 604807628,
   770255983, 1249150122, 1555081692, 1996064986, 2554220882,
   2821834349, 2952996808, 3210313671, 3336571891, 3584528711,
   113926993, 338241895, 666307205, 773529912, 1294757372,
   1396182291, 1695183700, 1986661051, 2177026350, 2456956037,
   2730485921, 2820302411, 3259730800, 3345764771, 3516065817,
   3600352804, 4094571909, 275423344, 430227734, 506948616,
   659060556, 883997877, 958139571, 1322822218, 1537002063,
   1747873779, 1955562222, 2024104815, 2227730452, 2361852424,
   2428436474, 2756734187, 3204031479, 3329325298]

/-- SHA-256 initial hash state. -/
def initH : List Nat :=
  [1779033703, 3144134277, 1013904242, 2773480762, 1359893119,
   2600822924, 528734635, 1541459225]

/-- The `k` bytes of `n`, big-endian (most significant first). -/
def beBytes : Nat → Nat → List Nat
  | 0, _ => []
  | k + 1, n => beBytes k (n >>> 8) ++ [n &&& 255]

/-- Merkle–Damgård padding: append `0x80`, zeros to 56 mod 64, then the
64-bit big-endian bit length. -/
def padMessage (msg : List Nat) : List Nat :=
  let L := msg.length
  let zeros := (119 - L % 64) % 64
  msg ++ [0x80] ++ List.replicate zeros 0 ++ beBytes 8 (L * 8)

/-- Split into 64-byte blocks. -/
def chunks64 : List Nat → List (List Nat)
  | [] => []
  | x :: xs => ((x :: xs).take 64) :: chunks64 ((x :: xs).drop 64)
termination_by l => l.length
decreasing_by
  simp only [List.length_drop, List.length_cons]
  omega

/-- Big-endian 32-bit words from a byte list. -/
def bytesToWords : List Nat → List Nat
  | a :: b :: c :: d :: rest =>
      ((a <<< 24) ||| (b <<< 16) ||| (c <<< 8) ||| d) :: bytesToWords rest
  | _ => []

/-- Extend the message schedule by `k` further words. -/
def extendSchedule (w : List Nat) : Nat → List Nat
  | 0 => w
  | k + 1 =>
      let i := w.length
      let wi := w32 (smallSigma1 (w.getD (i - 2) 0) + w.getD (i - 7) 0 +
                     smallSigma0 (w.getD (i - 15) 0) + w.getD (i - 16) 0)
      extendSchedule (w ++ [wi]) k

/-- One compression round on the 8-word working state. -/
def round1 (st : List Nat) (ki wi : Nat) : List Nat :=
  match st with
  | [a, b, c, d, e, f, g, hw] =>
      let t1 := w32 (hw + bigSigma1 e + ch e f g + ki + wi)
      let t2 := w32 (bigSigma0 a + maj a b c)
      [w32 (t1 + t2), a, b, c, w32 (d + t1), e, f, g]
  | st => st

/-- Compress one 64-byte block into the hash state. -/
def compressBlock (H : List Nat) (block : List Nat) : List Nat :=
  let ws := extendSchedule (bytesToWords block) 48
  let st := (roundK.zip ws).foldl (fun s p => round1 s p.1 p.2) H
  (H.zip st).map fun p => w32 (p.1 + p.2)

/-- SHA-256 of a byte list, as a 32-byte list. -/
def sha256 (msg : List Nat) : List Nat :=
  ((chunks64 (padMessage msg)).foldl compressBlock initH).map (beBytes 4) |>.flatten

/-- HMAC-SHA256 (RFC 2104) of `msg` keyed by `key`, as a 32-byte list. -/
def hmacSha256 (key msg : List Nat) : List Nat :=
  let k0 := if key.length > 64 then sha256 key else key
  let k1 := k0 ++ List.replicate (64 - k0.length) 0
  let ipadded := k1.map (fun b => b ^^^ 0x36)
  let opadded := k1.map (fun b => b ^^^ 0x5c)
  sha256 (opadded ++ sha256 (ipadded ++ msg))

/-! ## Hex digests and string encoding -/

/-- The lowercase hexadecimal alphabet. -/
def hexChars : List Char := "0123456789abcdef".data

/-- The lowercase hex digit of `n % 16`. -/
def hexDigit (n : Nat) : Char := hexChars.getD (n % 16) '0'

/-- Lowercase hex rendering of a byte list, as `bytes.hex()` / `.hexdigest()`. -/
def bytesToHex (bs : List Nat) : String :=
  ⟨(bs.map fun b => [hexDigit (b >>> 4), hexDigit b]).flatten⟩

/-- Whether every character of `s` is a lowercase hexadecimal digit. -/
def isLowerHex (s : String) : Bool := s.data.all fun c => decide (c ∈ hexChars)

/-- UTF-8 encoding of one character, as Python's `str.encode()` produces. -/
def utf8Bytes (c : Char) : List Nat :=
  let n := c.toNat
  if n < 0x80 then [n]
  else if n < 0x800 then
    [0xC0 ||| (n >>> 6), 0x80 ||| (n &&& 0x3F)]
  else if n < 0x10000 then
    [0xE0 ||| (n >>> 12), 0x80 ||| ((n >>> 6) &&& 0x3F), 0x80 ||| (n &&& 0x3F)]
  else
    [0xF0 ||| (n >>> 18), 0x80 ||| ((n >>> 12) &&& 0x3F),
     0x80 ||| ((n >>> 6) &&& 0x3F), 0x80 ||| (n &&& 0x3F)]

/-- UTF-8 bytes of a string (`str.encode()`). -/
def strBytes (s : String) : List Nat := (s.data.map utf8Bytes).flatten

/-- The handshake digest of `src/main.py` line 238:
`hmac.new(secret.encode(), token.encode(), hashlib.sha256).hexdigest()`. -/
def hmacHexdigest (secret token : String) : String :=
  bytesToHex (hmacSha256 (strBytes secret) (strBytes token))

/-! ## The webhook request data model

Mirrors exactly the fields `zoom_webhook` reads from the parsed JSON body;
`Option` marks a key that may be absent. -/

/-- One entry of `object["recording_files"]`. -/
structure RecordingFile where
  file_type : Option String
  download_url : Option String
deriving DecidableEq, Repr

/-- The `payload["object"]` mapping. -/
structure ZoomObject where
  id : Option String
  uuid : Option String
  duration : Option Int
  recording_files : List RecordingFile
deriving DecidableEq, Repr

/-- The `payload` mapping. -/
structure WebhookPayload where
  plainToken : Option String
  object : Option ZoomObject
deriving DecidableEq, Repr

/-- The parsed webhook JSON body. -/
structure WebhookData where
  event : Option String
  payload : Option WebhookPayload
  download_token : Option String
deriving DecidableEq, Repr

/-- Default of `data.get("payload", {})`. -/
def emptyPayload : WebhookPayload := ⟨none, none⟩

/-- Default of `payload.get("object", {})`. -/
def emptyObject : ZoomObject := ⟨none, none, none, []⟩

/-- Python `str(...)` on a possibly-missing value (`str(None) = "None"`). -/
def pyStr : Option String → String
  | none => "None"
  | some s => s

/-- Python truthiness of an optional string: `None` and `""` are falsy. -/
def truthy : Option String → Bool
  | none => false
  | some s => s != ""

/-- The arguments `zoom_webhook` passes to the scheduled background task. -/
structure JobSpec where
  download_url : String
  zoom_id : String
  zoom_uuid : String
  download_token : String
deriving DecidableEq, Repr

/-- A response body of the `/zoom-webhook` endpoint. -/
inductive WebhookResponse where
  | handshake (plainToken encryptedToken : String)
  | status (s : String)
deriving DecidableEq, Repr

/-- Whether a recording-file entry has `file_type == "MP4"`. -/
def isMP4 (f : RecordingFile) : Bool := f.file_type == some "MP4"

/-- Lines 253–254: `next((f.get("download_url") for f in recording_files
if f.get("file_type") == "MP4"), None)` — the `download_url` of the first
MP4 entry, which may itself be absent. -/
def selectDownloadUrl (files : List RecordingFile) : Option String :=
  (files.find? isMP4).bind fun f => f.download_url

/-- The body of the `try` block of `zoom_webhook` (lines 231–262): routing
an already-parsed body, possibly raising (`None.encode()` on a handshake
without `plainToken`).  Returns the response together with the background
job scheduled, if any. -/
def routeData (secret : String) (data : WebhookData) :
    Except PyErr (WebhookResponse × Option JobSpec) :=
  let payload := data.payload.getD emptyPayload
  if data.event = some "endpoint.url_validation" then
    match payload.plainToken with
    | none => .error .attributeError
    | some token => .ok (.handshake token (hmacHexdigest secret token), none)
  else if data.event = some "recording.completed" then
    let obj := payload.object.getD emptyObject
    if obj.duration.getD 0 < 2 then
      .ok (.status "too_short", none)
    else
      let download_url := selectDownloadUrl obj.recording_files
      if truthy download_url && truthy data.download_token then
        .ok (.status "queued",
          some ⟨download_url.getD "", pyStr obj.id, pyStr obj.uuid,
                data.download_token.getD ""⟩)
      else
        .ok (.status "ignored", none)
  else
    .ok (.status "ignored", none)

/-- The `/zoom-webhook` endpoint.  The request is either a parsed body or a
JSON-decoding failure; every exception from parsing or routing is caught at
the boundary and answered with `{"status": "error"}`, scheduling nothing. -/
def zoom_webhook (secret : String) (request : Except PyErr WebhookData) :
    WebhookResponse × Option JobSpec :=
  match request with
  | .error _ => (.status "error", none)
  | .ok data =>
    match routeData secret data with
    | .ok resp => resp
    | .error _ => (.status "error", none)

/-- The request is malformed JSON, or routing it raises: exactly the inputs
the `except` boundary of `zoom_webhook` exists for. -/
def routingRaises (secret : String) (request : Except PyErr WebhookData) : Prop :=
  match request with
  | .error _ => True
  | .ok d => ∃ e, routeData secret d = .error e

/-! ## The background job

`process_recording_logic` (lines 148–222).  Every outbound call's outcome is
fixed by a `JobEnv`; the observable side effects are collected in a trace.
The helper functions (`get_guest_email_from_zoom`, `find_contact_by_email`,
`find_client_by_appointment`, `find_contact_by_name`, `create_ghl_note`)
each wrap their HTTP work in `try/except` returning `None`/nothing on
failure, so none of them can raise; the raising steps are the download, the
AI upload/poll/generate calls, and the remote delete in `finally`. -/

/-- ASCII case folding, modelling Python's `str.lower()` on email text. -/
def lowerChar (c : Char) : Char :=
  if 65 ≤ c.toNat ∧ c.toNat ≤ 90 then Char.ofNat (c.toNat + 32) else c

/-- Python's `str.lower()` (restricted to ASCII case folding). -/
def pyLower (s : String) : String := ⟨s.data.map lowerChar⟩

/-- Model of `HOST_EMAILS` (line 36): operator emails excluded from guest detection. -/
def HOST_EMAILS : List String := ["support@fullbookai.com", "ofer.rapaport@gmail.com"]

/-- One entry of the Zoom participants report. -/
structure Participant where
  user_email : Option String
deriving DecidableEq, Repr

/-- One GHL appointment, with the free-text fields the matcher scans. -/
structure Appt where
  location : String
  address : String
  title : String
  contactId : Option String
deriving DecidableEq, Repr

/-- The AI service's reference to an uploaded file (`file_upload`). -/
structure UploadHandle where
  name : String
deriving DecidableEq, Repr

/-- Fixed outcomes of every outbound call a job can make.  An `Except.error`
models the call raising. -/
structure JobEnv where
  /-- Result of `get_zoom_access_token()`: `None` on any failure. -/
  zoomToken : Option String
  /-- Participants report; `none` models a non-200 status or an exception. -/
  participantsResp : Option (List Participant)
  /-- GHL `/contacts/` search: the contact ids returned for a query string. -/
  contactSearch : String → List String
  /-- GHL `/appointments/` in the ±12h window (empty on non-200/exception). -/
  appts : List Appt
  /-- The streamed recording download (`requests.get` + `raise_for_status`). -/
  downloadResult : Except PyErr Unit
  /-- Outcome of `genai.upload_file`. -/
  uploadResult : Except PyErr UploadHandle
  /-- The `PROCESSING` poll loop reaching a terminal state. -/
  pollResult : Except PyErr Unit
  /-- Outcome of `generate_content` + `response.text`. -/
  generateResult : Except PyErr String
  /-- Outcome of `genai.delete_file` in the `finally` block. -/
  deleteResult : Except PyErr Unit

/-- Observable side effects of a job, in order. -/
inductive Effect where
  | guestEmailLookup (uuid : String)
  | contactQuery (q : String)
  | apptSearch (zoomId : String)
  | downloadCall (url : String)
  | uploadCall
  | generateCall
  | nameQuery (n : String)
  | notePost (contactId body : String)
  | logAnalysis (zoomId text : String)
  | errorLogged
  | removeTemp
  | deleteRemote (name : String)
deriving DecidableEq, Repr

/-- The loop of `get_guest_email_from_zoom` (lines 70–74): the first
participant whose email is present, non-empty, and not one of the
operator's own addresses (case-insensitively), lowercased. -/
def firstGuest : List Participant → Option String
  | [] => none
  | p :: ps =>
    match p.user_email with
    | some e =>
        if e ≠ "" ∧ pyLower e ∉ HOST_EMAILS.map pyLower then some (pyLower e)
        else firstGuest ps
    | none => firstGuest ps

/-- Model of `get_guest_email_from_zoom` (lines 55–77): `None` without an OAuth token
or a 200 participants response, else the first non-host participant email. -/
def get_guest_email_from_zoom (env : JobEnv) (_meeting_uuid : String) :
    Option String :=
  match env.zoomToken with
  | none => none
  | some _ =>
    match env.participantsResp with
    | none => none
    | some ps => firstGuest ps

/-- Model of `find_contact_by_email` (lines 86–97): guard falsy email, then the first
id of the GHL contact search (`contacts[0]["id"]`), `None` when empty. -/
def find_contact_by_email (env : JobEnv) (email : String) : Option String :=
  if email = "" then none
  else (env.contactSearch email).head?

/-- Python's substring test `needle in hay` on character lists. -/
def containsSub (needle : List Char) : List Char → Bool
  | [] => needle.isPrefixOf []
  | c :: t => needle.isPrefixOf (c :: t) || containsSub needle t

/-- Python's `needle in hay` on strings. -/
def strContains (hay needle : String) : Bool := containsSub needle.data hay.data

/-- The loop of `find_client_by_appointment` (lines 113–118): on the first
appointment whose concatenated `location/address/title` text contains the
Zoom id, return its `contactId` (which may itself be absent) immediately. -/
def scanAppts (zoom_id : String) : List Appt → Option String
  | [] => none
  | a :: rest =>
      if strContains (a.location ++ a.address ++ a.title) zoom_id then a.contactId
      else scanAppts zoom_id rest

/-- Model of `find_client_by_appointment` (lines 99–121). -/
def find_client_by_appointment (env : JobEnv) (zoom_id : String) : Option String :=
  scanAppts zoom_id env.appts

/-- Model of `find_contact_by_name` (lines 123–133): guard falsy or short (< 3 chars)
names, then the first id of the GHL contact search. -/
def find_contact_by_name (env : JobEnv) (name : String) : Option String :=
  if name = "" ∨ name.length < 3 then none
  else (env.contactSearch name).head?

/-- Model of `create_ghl_note` (lines 135–142): one note-creation POST, issued for
any body whatsoever; its own `try/except` swallows HTTP failures. -/
def create_ghl_note (contact_id note_content : String) : List Effect :=
  [.notePost contact_id note_content]

/-- The marker scanned for in step 4. -/
def clientNameMarker : String := "**Client Name:**"

/-- Python's `text.split(sep)` for a one-character separator: splits on
every occurrence and keeps empty pieces (`"".split(c) == [""]`). -/
def splitChar (sep : Char) : List Char → List (List Char)
  | [] => [[]]
  | c :: t =>
      if c = sep then [] :: splitChar sep t
      else
        match splitChar sep t with
        | [] => [[c]]
        | g :: gs => (c :: g) :: gs

/-- Python's `s.replace(pat, "")`: delete every non-overlapping occurrence
of `pat`, scanning left to right. -/
def removeOccs (pat : List Char) : List Char → List Char
  | [] => []
  | c :: t =>
      if pat ≠ [] ∧ pat.isPrefixOf (c :: t) then
        removeOccs pat (t.drop (pat.length - 1))
      else c :: removeOccs pat t
termination_by cs => cs.length
decreasing_by
  · simp only [List.length_cons]
    have := List.length_drop (pat.length - 1) t
    omega
  · simp

/-- ASCII whitespace, as Python's `str.strip()` removes. -/
def isPySpace (c : Char) : Bool := c.toNat ∈ [9, 10, 11, 12, 13, 32]

/-- Python's `s.strip()` (restricted to ASCII whitespace). -/
def pyStrip (cs : List Char) : List Char :=
  ((cs.dropWhile isPySpace).reverse.dropWhile isPySpace).reverse

/-- The loop of lines 204–208: the first line containing the marker yields
`line.replace(marker, "").strip()`, and the loop breaks there. -/
def findMarkerLine : List String → Option String
  | [] => none
  | l :: rest =>
      if strContains l clientNameMarker then
        some ⟨pyStrip (removeOccs clientNameMarker.data l.data)⟩
      else findMarkerLine rest

/-- Name extraction over `result_text.split('\n')`. -/
def extractClientName (text : String) : Option String :=
  findMarkerLine ((splitChar '\n' text.data).map fun l => ⟨l⟩)

/-- Step 1 of the job (lines 155–167): the contact waterfall.  Strategy A is
the participants-API email looked up in GHL; strategy B (appointments) runs
exactly when `contact_id` is still falsy (line 165 `if not contact_id:` —
Python truthiness, so an empty-string id also falls through), and its result
then replaces `contact_id`. -/
def contactWaterfall (env : JobEnv) (zoom_id zoom_uuid : String) :
    Option String × List Effect :=
  let (c1, t1) :=
    match get_guest_email_from_zoom env zoom_uuid with
    | some e =>
        (find_contact_by_email env e,
         [Effect.guestEmailLookup zoom_uuid, Effect.contactQuery e])
    | none => (none, [Effect.guestEmailLookup zoom_uuid])
  if truthy c1 then (c1, t1)
  else (find_client_by_appointment env zoom_id, t1 ++ [.apptSearch zoom_id])

/-- Result of the `try` body (lines 152–216): trace, the `contact_id`
variable, whether `temp_file_path` was set, the `file_upload` variable, and
the exception that escaped the body, if any. -/
structure BodyOut where
  trace : List Effect
  contact : Option String
  tempCreated : Bool
  handle : Option UploadHandle
  err : Option PyErr
deriving Repr

/-- Step 4 (lines 201–208): when `contact_id` is still falsy (line 202
`if not contact_id:` — `None` or `""`), scan the AI text for the marker line
and query GHL with the extracted name, replacing `contact_id` with the
query's result; on a truthy contact, or when no line carries the marker,
`contact_id` is left as it was. -/
def nameFallback (env : JobEnv) (c0 : Option String) (result_text : String) :
    Option String × List Effect :=
  if truthy c0 then (c0, [])
  else
    match extractClientName result_text with
    | some nm => (find_contact_by_name env nm, [Effect.nameQuery nm])
    | none => (c0, [])

/-- Step 5 (lines 210–216): publish the note when `contact_id` is truthy
(line 211 `if contact_id:` — an empty-string id is falsy and is logged, not
posted), else log the analysis text as the failsafe. -/
def publishStep (c1 : Option String) (zoom_id result_text : String) : List Effect :=
  match c1 with
  | some cid =>
      if cid = "" then [Effect.logAnalysis zoom_id result_text]
      else create_ghl_note cid result_text
  | none => [Effect.logAnalysis zoom_id result_text]

/-- The `try` body of `process_recording_logic`: waterfall, download (the
temp file is created before the HTTP request), upload, poll, generate, name
fallback, then publish or log. -/
def jobBody (env : JobEnv) (download_url zoom_id zoom_uuid download_token : String) :
    BodyOut :=
  let w := contactWaterfall env zoom_id zoom_uuid
  let auth_url := download_url ++ "?access_token=" ++ download_token
  let t1 := w.2 ++ [Effect.downloadCall auth_url]
  match env.downloadResult with
  | .error e => ⟨t1, w.1, true, none, some e⟩
  | .ok _ =>
    let t2 := t1 ++ [Effect.uploadCall]
    match env.uploadResult with
    | .error e => ⟨t2, w.1, true, none, some e⟩
    | .ok handle =>
      match env.pollResult with
      | .error e => ⟨t2, w.1, true, some handle, some e⟩
      | .ok _ =>
        let t3 := t2 ++ [Effect.generateCall]
        match env.generateResult with
        | .error e => ⟨t3, w.1, true, some handle, some e⟩
        | .ok result_text =>
          let nf := nameFallback env w.1 result_text
          ⟨t3 ++ nf.2 ++ publishStep nf.1 zoom_id result_text,
           nf.1, true, some handle, none⟩

/-- Final state of one background job. -/
structure JobResult where
  trace : List Effect
  resolvedContact : Option String
  tempCreated : Bool
  tempFileExists : Bool
  outcome : Except PyErr Unit
deriving Repr

/-- Model of `process_recording_logic` (lines 148–222): run the body, swallow (log)
any body exception, then the `finally` block: remove the temp file if it
was created, then delete the remote upload if a handle was obtained — that
last call is not guarded, so its failure becomes the job's outcome. -/
def process_recording_logic (env : JobEnv)
    (download_url zoom_id zoom_uuid download_token : String) : JobResult :=
  let b := jobBody env download_url zoom_id zoom_uuid download_token
  let tr0 := b.trace ++ match b.err with | some _ => [Effect.errorLogged] | none => []
  let fileThere := b.tempCreated
  let doRemove := b.tempCreated && fileThere
  let tr1 := if doRemove then tr0 ++ [Effect.removeTemp] else tr0
  let stillExists := fileThere && !doRemove
  match b.handle with
  | none =>
      { trace := tr1, resolvedContact := b.contact, tempCreated := b.tempCreated,
        tempFileExists := stillExists, outcome := .ok () }
  | some hl =>
      { trace := tr1 ++ [Effect.deleteRemote hl.name], resolvedContact := b.contact,
        tempCreated := b.tempCreated, tempFileExists := stillExists,
        outcome := env.deleteResult }

/-- No note-creation POST occurs in the trace. -/
def noNotePost (tr : List Effect) : Bool :=
  tr.all fun ef => match ef with | .notePost _ _ => false | _ => true

/-- The appointment strategy is never consulted in the trace. -/
def noApptSearch (tr : List Effect) : Bool :=
  tr.all fun ef => match ef with | .apptSearch _ => false | _ => true

/-- The name-fallback query is never issued in the trace. -/
def noNameQuery (tr : List Effect) : Bool :=
  tr.all fun ef => match ef with | .nameQuery _ => false | _ => true

/-! ## Concrete environments, used to instantiate the theorems -/

/-- A run where the participants API yields a client email that GHL knows,
and every AI step succeeds (with an empty analysis text). -/
def sampleEnvFound : JobEnv where
  zoomToken := some "tok"
  participantsResp := some [⟨some "client@x.com"⟩]
  contactSearch := fun q => if q = "client@x.com" then ["C42"] else []
  appts := []
  downloadResult := .ok ()
  uploadResult := .ok ⟨"files/a1"⟩
  pollResult := .ok ()
  generateResult := .ok ""
  deleteResult := .ok ()

/-- A run where the only participant is an exclusion-listed address, every
GHL search is empty, and the AI text carries no client-name marker. -/
def envNoMatch : JobEnv where
  zoomToken := some "tok"
  participantsResp := some [⟨some "support@fullbookai.com"⟩]
  contactSearch := fun _ => []
  appts := []
  downloadResult := .ok ()
  uploadResult := .ok ⟨"files/b2"⟩
  pollResult := .ok ()
  generateResult := .ok "**Summary:** short call"
  deleteResult := .ok ()

/-- As `sampleEnvFound`, but the generation call raises. -/
def envGenFail : JobEnv := { sampleEnvFound with generateResult := .error .httpError }

/-- A run where the remote-file delete call in `finally` raises. -/
def envDeleteFail : JobEnv :=
  { sampleEnvFound with
    zoomToken := none
    deleteResult := .error (.other "delete failed") }

/-! # Theorems -/

/-! ## Auxiliary lemmas -/

theorem hexDigit_mem (n : Nat) : hexDigit n ∈ hexChars := by
  have h : n % 16 < hexChars.length := Nat.mod_lt _ (by decide)
  rw [hexDigit, List.getD_eq_getElem _ _ h]
  exact List.getElem_mem h

theorem bytesToHex_lowerHex (bs : List Nat) : isLowerHex (bytesToHex bs) = true := by
  rw [isLowerHex, List.all_eq_true]
  intro c hc
  have hc' : c ∈ (bs.map fun b => [hexDigit (b >>> 4), hexDigit b]).flatten := hc
  rcases List.mem_flatten.mp hc' with ⟨l, hl, hcl⟩
  rcases List.mem_map.mp hl with ⟨b, _, rfl⟩
  simp only [List.mem_cons, List.not_mem_nil, or_false] at hcl
  rcases hcl with rfl | rfl <;> exact decide_eq_true (hexDigit_mem _)

/-! ## C1 — handshake digest -/

/-- C1: for every handshake request (`event == "endpoint.url_validation"`)
carrying a `plainToken`, the response echoes the token and its
`encryptedToken` is the lowercase-hex HMAC-SHA256 digest of the token keyed
by the configured webhook secret, and no job is scheduled.  Determinism and
purity hold definitionally: `hmacHexdigest` is a function of exactly
(secret, token), so two runs on the same inputs give the same digest. -/
theorem handshake_digest_is_hmac (secret : String) (d : WebhookData) (t : String)
    (hev : d.event = some "endpoint.url_validation")
    (htok : (d.payload.getD emptyPayload).plainToken = some t) :
    zoom_webhook secret (.ok d)
        = (.handshake t (hmacHexdigest secret t), none)
      ∧ isLowerHex (hmacHexdigest secret t) = true := by
  refine ⟨?_, bytesToHex_lowerHex _⟩
  simp [zoom_webhook, routeData, hev, htok]

/-- The spec's own example vector: token `"abc123"`, secret `"s3cret"`. -/
theorem handshake_digest_is_hmac_witness :
    zoom_webhook "s3cret"
        (.ok ⟨some "endpoint.url_validation", some ⟨some "abc123", none⟩, none⟩)
        = (.handshake "abc123" (hmacHexdigest "s3cret" "abc123"), none)
      ∧ isLowerHex (hmacHexdigest "s3cret" "abc123") = true :=
  handshake_digest_is_hmac "s3cret" _ "abc123" rfl rfl

/-! ## C2 — short recordings -/

/-- C2 as stated is false: a below-threshold recording is answered with
status `"too_short"`, not `"skipped"` (duration 1, threshold 2). -/
theorem short_recording_status_counterexample :
    zoom_webhook "s" (.ok ⟨some "recording.completed",
        some ⟨none, some ⟨some "9", some "u", some 1, []⟩⟩, none⟩)
      = (.status "too_short", none)
    ∧ WebhookResponse.status "too_short" ≠ WebhookResponse.status "skipped" :=
  ⟨rfl, by decide⟩

/-- C2 amended: every recording-ready event whose duration is below the
minimum threshold (2) is answered with status `"too_short"` and schedules no
background job. -/
theorem short_recording_short_circuits (secret : String) (d : WebhookData)
    (hev : d.event = some "recording.completed")
    (hdur : ((d.payload.getD emptyPayload).object.getD emptyObject).duration.getD 0 < 2) :
    zoom_webhook secret (.ok d) = (.status "too_short", none) := by
  simp [zoom_webhook, routeData, hev, hdur]

theorem short_recording_short_circuits_witness :
    zoom_webhook "s" (.ok ⟨some "recording.completed",
        some ⟨none, some ⟨some "9", some "u", some 1, []⟩⟩, none⟩)
      = (.status "too_short", none) :=
  short_recording_short_circuits "s" _ rfl (by decide)

/-! ## C6 — the error boundary -/

/-- C6: every inbound request whose body fails to parse, and every
payload that makes routing raise, is still answered — with the generic
`{"status": "error"}` acknowledgement and no scheduled job — rather than
propagating the exception. -/
theorem webhook_error_boundary (secret : String) (request : Except PyErr WebhookData)
    (h : routingRaises secret request) :
    zoom_webhook secret request = (.status "error", none) := by
  cases request with
  | error e => rfl
  | ok d =>
      obtain ⟨e, he⟩ := h
      simp [zoom_webhook, he]

/-- Instances: a JSON-decode failure, and a handshake without `plainToken`
(whose routing raises `AttributeError` on `None.encode()`). -/
theorem webhook_error_boundary_witness :
    zoom_webhook "s" (.error .jsonDecodeError) = (.status "error", none)
    ∧ zoom_webhook "s" (.ok ⟨some "endpoint.url_validation", none, none⟩)
        = (.status "error", none) :=
  ⟨webhook_error_boundary "s" _ trivial,
   webhook_error_boundary "s" _ ⟨.attributeError, rfl⟩⟩

/-! ## C9 — recording-file selection -/

/-- C9 as stated is false: on a file list containing only an audio entry,
the code selects nothing at all — there is no audio-only preference and no
fallback to the first entry. -/
theorem file_selection_counterexample :
    selectDownloadUrl [⟨some "M4A", some "https://a"⟩] = none
    ∧ (none : Option String) ≠ some "https://a" :=
  ⟨rfl, by decide⟩

/-- C9 amended: the selection takes the `download_url` of the first MP4
entry when one exists, and selects nothing when no MP4 entry is present. -/
theorem file_selection_first_mp4 :
    (∀ files : List RecordingFile,
        (∀ f ∈ files, isMP4 f = false) → selectDownloadUrl files = none)
    ∧ ∀ (pre : List RecordingFile) (f : RecordingFile) (post : List RecordingFile),
        (∀ g ∈ pre, isMP4 g = false) → isMP4 f = true →
        selectDownloadUrl (pre ++ f :: post) = f.download_url := by
  constructor
  · intro files h
    have hf : files.find? isMP4 = none :=
      List.find?_eq_none.mpr (by intro x hx; simp [h x hx])
    simp [selectDownloadUrl, hf]
  · intro pre f post
    induction pre with
    | nil =>
        intro _ hf
        rw [List.nil_append, selectDownloadUrl, List.find?_cons_of_pos _ hf]
        rfl
    | cons g gs ih =>
        intro hpre hf
        have hg : isMP4 g = false := hpre g (List.mem_cons_self _ _)
        rw [List.cons_append, selectDownloadUrl,
          List.find?_cons_of_neg _ (by simp [hg])]
        exact ih (fun x hx => hpre x (List.mem_cons_of_mem _ hx)) hf

theorem file_selection_first_mp4_witness :
    selectDownloadUrl [⟨some "M4A", some "https://a"⟩] = none
    ∧ selectDownloadUrl
        [⟨some "M4A", some "https://a"⟩, ⟨some "MP4", some "https://b"⟩]
        = some "https://b" :=
  ⟨file_selection_first_mp4.1 _ (by decide),
   file_selection_first_mp4.2 [⟨some "M4A", some "https://a"⟩]
     ⟨some "MP4", some "https://b"⟩ [] (by decide) (by decide)⟩

/-! ## C10 — ignored recording-ready events -/

/-- C10: a recording-ready event that passes the duration gate but has no
MP4 entry in its file list, or carries no download token, is answered with
status `"ignored"` and schedules no job. -/
theorem no_mp4_or_token_ignored (secret : String) (d : WebhookData)
    (p : WebhookPayload) (o : ZoomObject)
    (hp : d.payload = some p) (ho : p.object = some o)
    (hev : d.event = some "recording.completed")
    (hdur : ¬ o.duration.getD 0 < 2)
    (hmiss : (∀ f ∈ o.recording_files, isMP4 f = false) ∨ d.download_token = none) :
    zoom_webhook secret (.ok d) = (.status "ignored", none) := by
  have hcond : ¬ (truthy (selectDownloadUrl o.recording_files) = true
      ∧ truthy d.download_token = true) := by
    rcases hmiss with hmp4 | htok
    · have hf : o.recording_files.find? isMP4 = none :=
        List.find?_eq_none.mpr (by intro x hx; simp [hmp4 x hx])
      have hnone : selectDownloadUrl o.recording_files = none := by
        simp [selectDownloadUrl, hf]
      simp [hnone, truthy]
    · simp [htok, truthy]
  simp [zoom_webhook, routeData, hp, ho, hev, hdur, hcond]

theorem no_mp4_or_token_ignored_witness :
    zoom_webhook "s" (.ok ⟨some "recording.completed",
        some ⟨none, some ⟨some "9", some "u", some 40,
          [⟨some "M4A", some "https://a"⟩]⟩⟩, some "tk"⟩)
      = (.status "ignored", none) :=
  no_mp4_or_token_ignored "s" _ _ _ rfl rfl rfl (by decide) (.inl (by decide))

/-! ## Job-level auxiliary lemmas -/

/-- The temp file is created on every path through the body: the waterfall
helpers never raise, and `NamedTemporaryFile` runs before the first fallible
call. -/
theorem jobBody_tempCreated (env : JobEnv) (u z q t : String) :
    (jobBody env u z q t).tempCreated = true := by
  unfold jobBody
  cases env.downloadResult <;> cases env.uploadResult <;>
    cases env.pollResult <;> cases env.generateResult <;> rfl

/-- The final `resolvedContact` is the body's `contact_id` variable. -/
theorem process_resolvedContact (env : JobEnv) (u z q t : String) :
    (process_recording_logic env u z q t).resolvedContact
      = (jobBody env u z q t).contact := by
  simp only [process_recording_logic]
  cases (jobBody env u z q t).handle <;> rfl

/-- The cleanup/logging effects the `finally`/`except` blocks append are
never an appointment consultation. -/
theorem process_noApptSearch (env : JobEnv) (u z q t : String) :
    noApptSearch (process_recording_logic env u z q t).trace
      = noApptSearch (jobBody env u z q t).trace := by
  have hb := jobBody_tempCreated env u z q t
  simp only [process_recording_logic, hb]
  cases he : (jobBody env u z q t).err <;>
    cases hh : (jobBody env u z q t).handle <;>
    simp [he, hh, noApptSearch, List.all_append]

/-- Nor are they ever a name-fallback query. -/
theorem process_noNameQuery (env : JobEnv) (u z q t : String) :
    noNameQuery (process_recording_logic env u z q t).trace
      = noNameQuery (jobBody env u z q t).trace := by
  have hb := jobBody_tempCreated env u z q t
  simp only [process_recording_logic, hb]
  cases he : (jobBody env u z q t).err <;>
    cases hh : (jobBody env u z q t).handle <;>
    simp [he, hh, noNameQuery, List.all_append]

/-- Nor are they ever a note post. -/
theorem process_noNotePost (env : JobEnv) (u z q t : String) :
    noNotePost (process_recording_logic env u z q t).trace
      = noNotePost (jobBody env u z q t).trace := by
  have hb := jobBody_tempCreated env u z q t
  simp only [process_recording_logic, hb]
  cases he : (jobBody env u z q t).err <;>
    cases hh : (jobBody env u z q t).handle <;>
    simp [he, hh, noNotePost, List.all_append]

/-- Every effect of the body remains in the job's final trace. -/
theorem process_trace_mem (env : JobEnv) (u z q t : String) (x : Effect)
    (hx : x ∈ (jobBody env u z q t).trace) :
    x ∈ (process_recording_logic env u z q t).trace := by
  have hb := jobBody_tempCreated env u z q t
  simp only [process_recording_logic, hb]
  cases he : (jobBody env u z q t).err <;>
    cases hh : (jobBody env u z q t).handle <;>
    simp [he, hh, List.mem_append, hx]

/-- When strategy 1 yields a truthy (non-empty) contact id, the waterfall
stops there: the contact is the email hit and the appointment search is
never reached. -/
theorem contactWaterfall_strategy1 (env : JobEnv) (zid uuid e cid : String)
    (hg : get_guest_email_from_zoom env uuid = some e)
    (hc : find_contact_by_email env e = some cid) (hcid : cid ≠ "") :
    contactWaterfall env zid uuid
      = (some cid, [Effect.guestEmailLookup uuid, Effect.contactQuery e]) := by
  simp [contactWaterfall, hg, hc, truthy, hcid]

/-- When every GHL contact search is empty and the appointment scan misses,
the waterfall resolves nothing, consulting only lookup effects. -/
theorem contactWaterfall_no_match (env : JobEnv) (zid uuid : String)
    (hsearch : ∀ s, env.contactSearch s = [])
    (happt : find_client_by_appointment env zid = none) :
    (contactWaterfall env zid uuid).1 = none
    ∧ noNotePost (contactWaterfall env zid uuid).2 = true := by
  have hce : ∀ e, find_contact_by_email env e = none := by
    intro e
    simp [find_contact_by_email, hsearch]
  cases hge : get_guest_email_from_zoom env uuid <;>
    simp [contactWaterfall, hge, hce, happt, noNotePost, truthy]

/-- With all-empty contact searches the name fallback also resolves nothing. -/
theorem nameFallback_no_match (env : JobEnv) (text : String)
    (hsearch : ∀ s, env.contactSearch s = []) :
    (nameFallback env none text).1 = none
    ∧ noNotePost (nameFallback env none text).2 = true := by
  have hcn : ∀ nm, find_contact_by_name env nm = none := by
    intro nm
    simp [find_contact_by_name, hsearch]
  cases hx : extractClientName text <;>
    simp [nameFallback, hx, hcn, noNotePost, truthy]

/-- Once the download and upload succeed, a handle is held at body end. -/
theorem jobBody_handle (env : JobEnv) (u z q t : String) (hl : UploadHandle)
    (hdl : env.downloadResult = .ok ()) (hup : env.uploadResult = .ok hl) :
    (jobBody env u z q t).handle = some hl := by
  unfold jobBody
  rw [hdl, hup]
  cases env.pollResult <;> cases env.generateResult <;> rfl

/-! ## C3 — the resolution waterfall is a strict priority order -/

/-- C3: whenever strategy 1 (participants-API email, looked up in GHL)
yields a contact id — a truthy one, since the empty string is falsy at
line 165's `if not contact_id:` and would fall through — that id is the
job's resolved contact on every success or failure path, and neither the
appointment strategy nor the name-fallback query is ever consulted. -/
theorem waterfall_strategy1_absolute (env : JobEnv)
    (download_url zoom_id zoom_uuid download_token e cid : String)
    (hg : get_guest_email_from_zoom env zoom_uuid = some e)
    (hc : find_contact_by_email env e = some cid) (hcid : cid ≠ "") :
    (process_recording_logic env download_url zoom_id zoom_uuid download_token).resolvedContact
        = some cid
    ∧ noApptSearch
        (process_recording_logic env download_url zoom_id zoom_uuid download_token).trace
        = true
    ∧ noNameQuery
        (process_recording_logic env download_url zoom_id zoom_uuid download_token).trace
        = true := by
  have hw := contactWaterfall_strategy1 env zoom_id zoom_uuid e cid hg hc hcid
  have hbody : (jobBody env download_url zoom_id zoom_uuid download_token).contact = some cid
      ∧ noApptSearch (jobBody env download_url zoom_id zoom_uuid download_token).trace = true
      ∧ noNameQuery (jobBody env download_url zoom_id zoom_uuid download_token).trace = true := by
    unfold jobBody
    rw [hw]
    cases env.downloadResult <;> cases env.uploadResult <;>
      cases env.pollResult <;> cases env.generateResult <;>
      simp [noApptSearch, noNameQuery, nameFallback, publishStep, create_ghl_note,
        truthy, hcid]
  refine ⟨?_, ?_, ?_⟩
  · rw [process_resolvedContact]
    exact hbody.1
  · rw [process_noApptSearch]
    exact hbody.2.1
  · rw [process_noNameQuery]
    exact hbody.2.2

/-! ## C4 — temp-file lifecycle -/

/-- C4: every job creates the local temporary media file (the waterfall
helpers cannot raise, so control always reaches the download step), and on
every path — success, or an exception at the download, upload, poll or
generation step — the file is removed by the `finally` block and no longer
exists when the job ends. -/
theorem temp_file_removed_on_all_paths (env : JobEnv)
    (download_url zoom_id zoom_uuid download_token : String) :
    (process_recording_logic env download_url zoom_id zoom_uuid download_token).tempCreated
        = true
    ∧ (process_recording_logic env download_url zoom_id zoom_uuid download_token).tempFileExists
        = false
    ∧ Effect.removeTemp
        ∈ (process_recording_logic env download_url zoom_id zoom_uuid download_token).trace := by
  have hb := jobBody_tempCreated env download_url zoom_id zoom_uuid download_token
  simp only [process_recording_logic, hb]
  cases he : (jobBody env download_url zoom_id zoom_uuid download_token).err <;>
    cases hh : (jobBody env download_url zoom_id zoom_uuid download_token).handle <;>
    simp [he, hh, hb, List.mem_append]

/-! ## C5 — remote-handle release -/

/-- C5 as stated is false: a failure of the release call
(`genai.delete_file` in the `finally` block) is not swallowed — the job's
outcome is that exception, which propagates out of
`process_recording_logic`. -/
theorem release_failure_escapes_counterexample :
    (process_recording_logic envDeleteFail "https://d" "123" "uu" "tk").outcome
        = .error (.other "delete failed")
    ∧ (process_recording_logic envDeleteFail "https://d" "123" "uu" "tk").outcome
        ≠ .ok () := by
  have h1 : (process_recording_logic envDeleteFail "https://d" "123" "uu" "tk").outcome
      = Except.error (PyErr.other "delete failed") := rfl
  exact ⟨h1, by rw [h1]; exact fun h => Except.noConfusion h⟩

/-- C5 amended: whenever an upload handle was obtained, the release call
is issued at job end — even when a later step (poll, generation) failed —
but a failure of the release call itself is not caught: the job's outcome
is exactly the release call's outcome. -/
theorem release_attempted_but_failure_escapes (env : JobEnv)
    (download_url zoom_id zoom_uuid download_token : String) (hl : UploadHandle)
    (hdl : env.downloadResult = .ok ()) (hup : env.uploadResult = .ok hl) :
    Effect.deleteRemote hl.name
        ∈ (process_recording_logic env download_url zoom_id zoom_uuid download_token).trace
    ∧ (process_recording_logic env download_url zoom_id zoom_uuid download_token).outcome
        = env.deleteResult := by
  have hb := jobBody_tempCreated env download_url zoom_id zoom_uuid download_token
  have hh := jobBody_handle env download_url zoom_id zoom_uuid download_token hl hdl hup
  simp only [process_recording_logic, hb]
  cases he : (jobBody env download_url zoom_id zoom_uuid download_token).err <;>
    simp [he, hh, List.mem_append]

/-- Instance with a failed generation step: the release is still attempted
(and, the delete call itself succeeding, the job ends cleanly). -/
theorem release_attempted_but_failure_escapes_witness :
    Effect.deleteRemote "files/a1"
        ∈ (process_recording_logic envGenFail "https://d" "123" "uu" "tk").trace
    ∧ (process_recording_logic envGenFail "https://d" "123" "uu" "tk").outcome
        = envGenFail.deleteResult :=
  release_attempted_but_failure_escapes envGenFail "https://d" "123" "uu" "tk"
    ⟨"files/a1"⟩ rfl rfl

/-! ## C7 — no minimum-length guard on notes -/

/-- C7 as stated is false: `create_ghl_note` issues its remote POST even
for an empty note body (shorter than 10 characters). -/
theorem note_length_guard_counterexample :
    String.length "" < 10
    ∧ Effect.notePost "C1" "" ∈ create_ghl_note "C1" "" := by
  decide

/-- C7 amended: `create_ghl_note` has no minimum-length guard — in every
job that resolves a (truthy, non-empty-id) contact and obtains an analysis
text, the note POST is issued for that exact text, regardless of its
length. -/
theorem note_posted_regardless_of_length (env : JobEnv)
    (download_url zoom_id zoom_uuid download_token e cid text : String)
    (hl : UploadHandle)
    (hg : get_guest_email_from_zoom env zoom_uuid = some e)
    (hc : find_contact_by_email env e = some cid) (hcid : cid ≠ "")
    (hdl : env.downloadResult = .ok ()) (hup : env.uploadResult = .ok hl)
    (hpoll : env.pollResult = .ok ()) (hgen : env.generateResult = .ok text) :
    Effect.notePost cid text
      ∈ (process_recording_logic env download_url zoom_id zoom_uuid download_token).trace := by
  have hw := contactWaterfall_strategy1 env zoom_id zoom_uuid e cid hg hc hcid
  apply process_trace_mem
  simp [jobBody, hw, hdl, hup, hpoll, hgen, nameFallback, publishStep,
    create_ghl_note, List.mem_append, truthy, hcid]

/-- Instance with the empty (0 < 10 characters) analysis text. -/
theorem note_posted_regardless_of_length_witness :
    String.length "" < 10
    ∧ Effect.notePost "C42" ""
        ∈ (process_recording_logic sampleEnvFound "https://d" "123" "uu" "tk").trace :=
  ⟨by decide,
   note_posted_regardless_of_length sampleEnvFound "https://d" "123" "uu" "tk"
     "client@x.com" "C42" "" ⟨"files/a1"⟩ (by decide) (by decide) (by decide)
     rfl rfl rfl rfl⟩

/-! ## C8 — no-match jobs only log -/

/-- C8: when no waterfall strategy yields a match (every GHL contact
search is empty and the appointment scan misses) and the analysis text was
obtained, the job resolves no contact, never issues a note POST, and logs
the analysis text as the failsafe. -/
theorem no_match_logs_only (env : JobEnv)
    (download_url zoom_id zoom_uuid download_token text : String) (hl : UploadHandle)
    (hsearch : ∀ s, env.contactSearch s = [])
    (happt : find_client_by_appointment env zoom_id = none)
    (hdl : env.downloadResult = .ok ()) (hup : env.uploadResult = .ok hl)
    (hpoll : env.pollResult = .ok ()) (hgen : env.generateResult = .ok text) :
    (process_recording_logic env download_url zoom_id zoom_uuid download_token).resolvedContact
        = none
    ∧ noNotePost
        (process_recording_logic env download_url zoom_id zoom_uuid download_token).trace
        = true
    ∧ Effect.logAnalysis zoom_id text
        ∈ (process_recording_logic env download_url zoom_id zoom_uuid download_token).trace := by
  obtain ⟨hw1, hw2⟩ := contactWaterfall_no_match env zoom_id zoom_uuid hsearch happt
  obtain ⟨hn1, hn2⟩ := nameFallback_no_match env text hsearch
  have hbody : (jobBody env download_url zoom_id zoom_uuid download_token).contact = none
      ∧ noNotePost (jobBody env download_url zoom_id zoom_uuid download_token).trace = true
      ∧ Effect.logAnalysis zoom_id text
          ∈ (jobBody env download_url zoom_id zoom_uuid download_token).trace := by
    simp only [jobBody, hdl, hup, hpoll, hgen, hw1]
    refine ⟨by simp [hn1], ?_, ?_⟩
    · simp only [noNotePost] at hw2 hn2 ⊢
      simp [List.all_append, hw2, hn2, publishStep, hn1]
    · simp [List.mem_append, publishStep, hn1]
  refine ⟨?_, ?_, ?_⟩
  · rw [process_resolvedContact]
    exact hbody.1
  · rw [process_noNotePost]
    exact hbody.2.1
  · exact process_trace_mem _ _ _ _ _ _ hbody.2.2

theorem no_match_logs_only_witness :
    (process_recording_logic envNoMatch "https://d" "123" "uu" "tk").resolvedContact = none
    ∧ noNotePost (process_recording_logic envNoMatch "https://d" "123" "uu" "tk").trace = true
    ∧ Effect.logAnalysis "123" "**Summary:** short call"
        ∈ (process_recording_logic envNoMatch "https://d" "123" "uu" "tk").trace :=
  no_match_logs_only envNoMatch "https://d" "123" "uu" "tk" "**Summary:** short call"
    ⟨"files/b2"⟩ (fun _ => rfl) rfl rfl rfl rfl rfl

theorem waterfall_strategy1_absolute_witness :
    (process_recording_logic sampleEnvFound "https://d" "123" "uu" "tk").resolvedContact
        = some "C42"
    ∧ noApptSearch
        (process_recording_logic sampleEnvFound "https://d" "123" "uu" "tk").trace = true
    ∧ noNameQuery
        (process_recording_logic sampleEnvFound "https://d" "123" "uu" "tk").trace = true :=
  waterfall_strategy1_absolute sampleEnvFound "https://d" "123" "uu" "tk"
    "client@x.com" "C42" (by decide) (by decide) (by decide)

end ZoomAuto
